import Mathlib

/-!
Shallow embedding of the Inventory-Management backend (Flask/SQLAlchemy).

The embedding covers the parts of the code the specification's claims are
about:

* `models.py`: the `Product` and `User` records, `Product.update_quantity`,
  `Product.is_in_stock`, `Product.find_by_sku`, `User.find_by_username`,
  `User.find_by_id`, and the database-level UNIQUE constraints declared on
  the `sku`, `username` and `email` columns (enforced by `save` on insert).
* `services/product_service.py`: `ProductService.create_product`,
  `ProductService.update_product_quantity`,
  `ProductService.validate_product_data`.
* `services/auth_service.py`: `AuthService.authenticate_user`,
  `AuthService.get_current_user`.
* `app.py` routes (the live endpoints; the blueprint in
  `routes/api_routes.py` is never registered): `register`, `add_product`,
  `update_product_quantity`, `delete_product`, `get_product`.

JSON scalar inputs are modelled by `JVal` (integers, strings, null); Python's
`int(x)` and `float(x)` coercions used by `validate_product_data` are
modelled by `pyInt` and `pyFloat`.  Persistence is a list of records plus a
fresh-id counter, per the spec's generic-data-store model; the UNIQUE column
constraints are checked on insert, and a violation is the `IntegrityError`
path of the code's `save` (rollback, exception caught by the service/route).
-/

namespace Inventory

/-- JSON scalar value as delivered by `request.get_json()`: an integer, a
string, or null.  (JSON floats and booleans are not needed by any claim and
are omitted.) -/
inductive JVal where
  | jint (n : Int)
  | jstr (s : String)
  | jnull
  deriving DecidableEq, Repr

/-- ASCII whitespace recognized by Python's `str.strip()` and the numeric
constructors (unicode whitespace is not modelled; no claim depends on it). -/
def isPyWhitespace (c : Char) : Bool :=
  c == ' ' || c == '\t' || c == '\n' || c == '\r' || c == '\x0b' || c == '\x0c'

/-- Python `s.strip()` restricted to ASCII whitespace. -/
def pyStrip (s : String) : String :=
  String.mk
    (((s.data.dropWhile isPyWhitespace).reverse.dropWhile isPyWhitespace).reverse)

/-- Accumulating decimal-digit parser: consumes the whole list or fails. -/
def parseDigitsAux : Nat → List Char → Option Nat
  | acc, [] => some acc
  | acc, c :: cs =>
      if c.isDigit then parseDigitsAux (acc * 10 + (c.toNat - 48)) cs else none

/-- Nonempty all-digit string to Nat. -/
def parseDigits (cs : List Char) : Option Nat :=
  match cs with
  | [] => none
  | _ => parseDigitsAux 0 cs

/-- Python `int(s)` on a string: surrounding whitespace stripped, optional
single sign, then decimal digits.  (Python's underscore digit grouping is not
modelled; no claim depends on it.) -/
def pyIntStr (s : String) : Option Int :=
  match (pyStrip s).data with
  | '-' :: rest => (parseDigits rest).map (fun n => -(n : Int))
  | '+' :: rest => (parseDigits rest).map (fun n => (n : Int))
  | cs => (parseDigits cs).map (fun n => (n : Int))

/-- Unsigned decimal literal `digits`, `digits.digits`, `digits.` or
`.digits`, represented exactly: the result `(m, k)` stands for the rational
m / 10^k.  The code uses only parse success and the sign of the value, and
m / 10^k < 0 iff m < 0, so the scaled-integer representation loses
nothing. -/
def parseDecimal (cs : List Char) : Option (Int × Nat) :=
  match cs.splitOn '.' with
  | [as] => (parseDigits as).map (fun n => ((n : Int), 0))
  | [as, bs] =>
      if as.isEmpty && bs.isEmpty then none
      else
        match parseDigitsAux 0 as, parseDigitsAux 0 bs with
        | some a, some b => some (((a * 10 ^ bs.length + b : Nat) : Int), bs.length)
        | _, _ => none
  | _ => none

/-- Python `float(s)` on a string, restricted to plain decimal literals with
an optional sign (exponents, `inf` and `nan` are not modelled; no claim
depends on them).  The result `(m, k)` stands for m / 10^k. -/
def pyFloatStr (s : String) : Option (Int × Nat) :=
  match (pyStrip s).data with
  | '-' :: rest => (parseDecimal rest).map (fun q => (-q.1, q.2))
  | '+' :: rest => parseDecimal rest
  | cs => parseDecimal cs

/-- Python `int(x)` as used by `validate_product_data`: identity on ints,
string parse on strings, `TypeError` (none) on null. -/
def pyInt : JVal → Option Int
  | .jint n => some n
  | .jstr s => pyIntStr s
  | .jnull => none

/-- Python `float(x)` as used by `validate_product_data`; the result
`(m, k)` stands for m / 10^k. -/
def pyFloat : JVal → Option (Int × Nat)
  | .jint n => some (n, 0)
  | .jstr s => pyFloatStr s
  | .jnull => none

/-- Row of the `products` table (`models.py`, class `Product`).  `quantity`
and `price` hold the value the code actually assigned (`Product.__init__`
copies the request values unconverted, so they may be strings); `id` is the
primary key, `is_active` the soft-delete flag, `created_by` the nullable
owner reference.  Timestamps carry no claim-relevant information and are
omitted. -/
structure Product where
  id : Nat
  name : String
  type : Option String
  sku : String
  image_url : Option String
  description : Option String
  quantity : JVal
  price : JVal
  is_active : Bool
  created_by : Option Nat
  deriving DecidableEq, Repr

/-- Backing store for the `products` table: the rows plus the next
auto-increment primary key. -/
structure Store where
  products : List Product
  nextId : Nat
  deriving DecidableEq, Repr

/-- Empty products table with first id 1 (SQLite auto-increment). -/
def Store.empty : Store := { products := [], nextId := 1 }

/-- Python comparison `self.quantity > 0` (`Product.is_in_stock`): defined on
integers, a `TypeError` (none) on a string or null quantity. -/
def jvalPos : JVal → Option Bool
  | .jint n => some (decide (0 < n))
  | _ => none

/-- Product.is_in_stock: `return self.quantity > 0`. -/
def Product.is_in_stock (p : Product) : Option Bool :=
  jvalPos p.quantity

/-- Product.find_by_sku: `cls.query.filter_by(sku=sku, is_active=True).first()`
— note the `is_active=True` filter: inactive rows are invisible to this
lookup. -/
def find_by_sku (st : Store) (sku : String) : Option Product :=
  st.products.find? (fun p => p.sku == sku && p.is_active)

/-- Product.query.get(id) / get_or_404(id): primary-key lookup, no
active-flag filter. -/
def getById (st : Store) (pid : Nat) : Option Product :=
  st.products.find? (fun p => p.id == pid)

/-- Request body for product creation: each field is `some` when the key is
present in the JSON object.  `name` and `sku` are modelled as strings (every
claim supplies strings there); `quantity` and `price` keep their raw JSON
value. -/
structure ProductData where
  name : Option String
  sku : Option String
  quantity : Option JVal
  price : Option JVal
  type : Option String
  image_url : Option String
  description : Option String
  deriving DecidableEq, Repr

/-- ProductService.validate_product_data.  Returns `(len(errors) == 0,
errors)` with the error messages in source order: required-field messages
for name, sku, quantity, price, then the name, sku, quantity and price range
checks.  `none` data is the falsy `if not data` branch. -/
def validate_product_data (data : Option ProductData) : Bool × List String :=
  match data with
  | none => (false, ["No data provided"])
  | some d =>
      let errors : List String :=
        (if d.name.isNone then ["name is required"] else [])
        ++ (if d.sku.isNone then ["sku is required"] else [])
        ++ (if d.quantity.isNone then ["quantity is required"] else [])
        ++ (if d.price.isNone then ["price is required"] else [])
        ++ (match d.name with
            | some n =>
                if n == "" || (pyStrip n).length < 2 then
                  ["Product name must be at least 2 characters long"]
                else []
            | none => [])
        ++ (match d.sku with
            | some s =>
                if s == "" || (pyStrip s).length < 3 then
                  ["SKU must be at least 3 characters long"]
                else []
            | none => [])
        ++ (match d.quantity with
            | some q =>
                match pyInt q with
                | some n => if n < 0 then ["Quantity cannot be negative"] else []
                | none => ["Quantity must be a valid integer"]
            | none => [])
        ++ (match d.price with
            | some p =>
                match pyFloat p with
                | some r => if r.1 < 0 then ["Price cannot be negative"] else []
                | none => ["Price must be a valid number"]
            | none => [])
      (errors.isEmpty, errors)

/-- Message text of the `sqlite3.IntegrityError` raised when an insert
violates the UNIQUE constraint on `products.sku`; it reaches the caller as
`str(e)` via the service's generic `except Exception` branch.  It does not
contain the substring "already exists", so `routes/api_routes.py` maps it to
status 400, not 409. -/
def skuIntegrityError : String := "UNIQUE constraint failed: products.sku"

/-- Result of ProductService.create_product, one constructor per return site
of the source function:
`created p` is `(True, "Product created successfully", product)`;
`invalid errs` is `(False, "; ".join(errors), None)`;
`dupSku sku` is `(False, f"Product with SKU \x7bsku\x7d already exists", None)`;
`failed msg` is the `except Exception` branch
`(False, f"Product creation failed: \x7bstr(e)\x7d", None)`. -/
inductive CreateRes where
  | created (p : Product)
  | invalid (errs : List String)
  | dupSku (sku : String)
  | failed (msg : String)
  deriving DecidableEq, Repr

/-- Product.__init__ (`models.py`) combined with the column defaults applied
on insert: the request values are assigned UNCONVERTED (`quantity` and
`price` keep whatever JSON value arrived), `is_active` defaults to true, and
the primary key is the table's next auto-increment value. -/
def newProduct (pid : Nat) (name sku : String) (quantity price : JVal)
    (type image_url description : Option String) (created_by : Option Nat) :
    Product :=
  { id := pid
    name := name
    type := type
    sku := sku
    image_url := image_url
    description := description
    quantity := quantity
    price := price
    is_active := true
    created_by := created_by }

/-- ProductService.create_product.  Validates, checks `find_by_sku` (active
rows only), constructs the `Product` with the raw request values, and saves;
the database UNIQUE constraint on `sku` is checked against all rows, active
or not, and a violation rolls back (store unchanged) and surfaces through
the `except Exception` branch.  The unreachable `failed "KeyError"` arms are
the `KeyError` a missing dict key would raise (validation guarantees the
keys are present). -/
def create_product (data : Option ProductData) (created_by : Option Nat)
    (st : Store) : CreateRes × Store :=
  let v := validate_product_data data
  if !v.1 then (.invalid v.2, st)
  else
    match data with
    | none => (.failed "KeyError", st)
    | some d =>
        match d.sku with
        | none => (.failed "KeyError", st)
        | some sku =>
            if (find_by_sku st sku).isSome then (.dupSku sku, st)
            else
              match d.name, d.quantity, d.price with
              | some name, some q, some pr =>
                  let prod : Product :=
                    newProduct st.nextId name sku q pr
                      d.type d.image_url d.description created_by
                  if st.products.any (fun r => r.sku == sku) then
                    (.failed skuIntegrityError, st)
                  else
                    (.created prod,
                     { products := st.products ++ [prod], nextId := st.nextId + 1 })
              | _, _, _ => (.failed "KeyError", st)

/-- Product.update_quantity (`models.py`): raises
`ValueError("Quantity cannot be negative")` before any assignment when the
new quantity is negative; otherwise assigns and saves.  The caller-visible
exception is the `error` branch. -/
def Product.update_quantity (p : Product) (new_quantity : Int) :
    Except String Product :=
  if new_quantity < 0 then .error "Quantity cannot be negative"
  else .ok { p with quantity := .jint new_quantity }

/-- Row update through `save`: every row with the product's primary key is
replaced by the new row (keys are unique in the table, so this is the
single-row UPDATE the ORM performs). -/
def setProduct (st : Store) (p : Product) : Store :=
  { st with products := st.products.map (fun r => if r.id == p.id then p else r) }

/-- Result of ProductService.update_product_quantity, one constructor per
return site:
`updated p` is `(True, "Quantity updated successfully", product)`;
`notFound` is `(False, "Product not found", None)`;
`inactive` is `(False, "Product is inactive", None)`;
`badQuantity` is `(False, "Quantity must be a non-negative integer", None)`;
`valueError msg` is the `except ValueError` branch `(False, str(ve), None)`. -/
inductive UpdateRes where
  | updated (p : Product)
  | notFound
  | inactive
  | badQuantity
  | valueError (msg : String)
  deriving DecidableEq, Repr

/-- ProductService.update_product_quantity.  Looks the product up by primary
key, rejects inactive products, rejects a non-int or negative quantity
(`not isinstance(new_quantity, int) or new_quantity < 0`), then delegates to
`Product.update_quantity` and saves. -/
def update_product_quantity (product_id : Nat) (new_quantity : JVal)
    (st : Store) : UpdateRes × Store :=
  match getById st product_id with
  | none => (.notFound, st)
  | some product =>
      if !product.is_active then (.inactive, st)
      else
        match new_quantity with
        | .jint n =>
            if n < 0 then (.badQuantity, st)
            else
              match product.update_quantity n with
              | .error ve => (.valueError ve, st)
              | .ok updated => (.updated updated, setProduct st updated)
        | _ => (.badQuantity, st)

/-- Result of the `app.py` route `POST /products` (`add_product`), one
constructor per response site:
`missingFields` is 400 "Missing required product fields";
`skuConflict sku` is 409 "Product with SKU ... already exists";
`added pid` is 201 with the new product id;
`serverError msg` is the `except Exception` branch, 500. -/
inductive AddRouteRes where
  | missingFields
  | skuConflict (sku : String)
  | added (productId : Nat)
  | serverError (msg : String)
  deriving DecidableEq, Repr

/-- Route `POST /products` in `app.py` (`add_product`).  Checks only key
presence (`all(field in data ...)`) — it performs NO range or type
validation of quantity or price — then the active-only `find_by_sku` check,
then constructs the `Product` from the raw request values and saves (insert,
subject to the UNIQUE sku constraint).  `identity` is the JWT subject, used
solely as `created_by`. -/
def addProductRoute (identity : Nat) (d : ProductData) (st : Store) :
    AddRouteRes × Store :=
  match d.name, d.sku, d.quantity, d.price with
  | some name, some sku, some q, some pr =>
      if (find_by_sku st sku).isSome then (.skuConflict sku, st)
      else
        let prod : Product :=
          newProduct st.nextId name sku q pr
            d.type d.image_url d.description (some identity)
        if st.products.any (fun r => r.sku == sku) then
          (.serverError skuIntegrityError, st)
        else
          (.added st.nextId,
           { products := st.products ++ [prod], nextId := st.nextId + 1 })
  | _, _, _, _ => (.missingFields, st)

/-- Result of the `app.py` route `PUT /products/<id>/quantity`, one
constructor per response site:
`notFound404` is the `get_or_404` 404;
`invalidQuantity` is 400 "Invalid or missing quantity"
(missing key or `not isinstance(data['quantity'], int)`);
`valueErr msg` is 400 `str(ValueError)`;
`ok200 p` is 200 with the serialized product. -/
inductive QtyRouteRes where
  | notFound404
  | invalidQuantity
  | valueErr (msg : String)
  | ok200 (p : Product)
  deriving DecidableEq, Repr

/-- Route `PUT /products/<id>/quantity` in `app.py`
(`update_product_quantity`).  Uses `get_or_404` (no active-flag filter —
unlike the service, this route never rejects an inactive product), checks
the quantity key is present and an int, then calls
`Product.update_quantity` and returns the updated product.  `quantity` is
the value of the request's `quantity` key, `none` when the key is absent. -/
def updateQuantityRoute (pid : Nat) (quantity : Option JVal) (st : Store) :
    QtyRouteRes × Store :=
  match getById st pid with
  | none => (.notFound404, st)
  | some product =>
      match quantity with
      | some (.jint n) =>
          match product.update_quantity n with
          | .error ve => (.valueErr ve, st)
          | .ok updated => (.ok200 updated, setProduct st updated)
      | _ => (.invalidQuantity, st)

/-- Product with the soft-delete flag cleared: `product.is_active = False`. -/
def markInactive (p : Product) : Product := { p with is_active := false }

/-- Result of the `app.py` route `DELETE /products/<id>` (`delete_product`):
`notFound404` is the `get_or_404` 404; `deleted` is
200 "Product deleted successfully".  (The `except` branch is unreachable in
the store model: a single-row flag update violates no constraint.) -/
inductive DelRouteRes where
  | notFound404
  | deleted
  deriving DecidableEq, Repr

/-- Route `DELETE /products/<id>` in `app.py` (`delete_product`): soft
delete.  `get_or_404`, then `product.is_active = False; product.save()`. -/
def deleteRoute (pid : Nat) (st : Store) : DelRouteRes × Store :=
  match getById st pid with
  | none => (.notFound404, st)
  | some product =>
      let updated := markInactive product
      (.deleted, setProduct st updated)

/-- Route `GET /products/<id>` in `app.py` (`get_product`): `get_or_404`
then the serialized product — no active-flag filter, so inactive products
stay queryable by id.  `none` is the 404 response. -/
def getProductRoute (pid : Nat) (st : Store) : Option Product :=
  getById st pid

/-- Row of the `users` table (`models.py`, class `User`).  `password_hash`
is the stored credential (the model's `set_password` output); timestamps are
omitted. -/
structure User where
  id : Nat
  username : String
  password_hash : String
  email : Option String
  is_active : Bool
  deriving DecidableEq, Repr

/-- Backing store for the `users` table. -/
structure UserStore where
  users : List User
  nextId : Nat
  deriving DecidableEq, Repr

/-- User.find_by_username: `cls.query.filter_by(username=username).first()`.
String equality is exact and case-sensitive (SQLite's default BINARY
collation on the column). -/
def find_by_username (us : UserStore) (username : String) : Option User :=
  us.users.find? (fun u => u.username == username)

/-- User.find_by_id: `cls.query.get(user_id)`. -/
def find_by_id (us : UserStore) (uid : Nat) : Option User :=
  us.users.find? (fun u => u.id == uid)

/-- Lookup used by the register route's email check:
`User.query.filter_by(email=email).first()`. -/
def find_by_email (us : UserStore) (email : String) : Option User :=
  us.users.find? (fun u => u.email == some email)

/-- Request body of `POST /register`: each field is `some` when the key is
present; `""` models a present-but-falsy value (the route tests truthiness,
not presence). -/
structure RegisterData where
  username : Option String
  password : Option String
  email : Option String
  deriving DecidableEq, Repr

/-- Result of the `app.py` route `POST /register`, one constructor per
response site:
`missingCreds` is 400 "Missing username or password";
`userExists` is 409 "User already exists";
`emailExists` is 409 "Email already registered";
`created u` is 201 "User created successfully" with the serialized user.
(The `except` branch is unreachable after the two duplicate checks in the
sequential store model.) -/
inductive RegRes where
  | missingCreds
  | userExists
  | emailExists
  | created (u : User)
  deriving DecidableEq, Repr

/-- Route `POST /register` in `app.py` (`register`).  Rejects a missing or
falsy username/password, then a duplicate username
(`User.find_by_username`, exact match), then — when an email is supplied
and truthy — a duplicate email, and otherwise constructs the `User` (the
constructor hashes the password through the credential store, modelled by
the injected `hashFn`, per the spec's Credential Store interface) and
saves it with `is_active` defaulting to true. -/
def registerRoute (hashFn : String → String) (d : RegisterData)
    (us : UserStore) : RegRes × UserStore :=
  match d.username, d.password with
  | some username, some password =>
      if username == "" || password == "" then (.missingCreds, us)
      else if (find_by_username us username).isSome then (.userExists, us)
      else
        let email := d.email
        if (match email with
            | some e => e != "" && (find_by_email us e).isSome
            | none => false) then (.emailExists, us)
        else
          let u : User :=
            { id := us.nextId
              username := username
              password_hash := hashFn password
              email := email
              is_active := true }
          (.created u, { users := us.users ++ [u], nextId := us.nextId + 1 })
  | _, _ => (.missingCreds, us)

/-- Result of AuthService.authenticate_user, one constructor per return
site: `ok token u` is `(True, "Login successful", access_token, user)` with
the token's identity claim `str(user.id)` modelled as the id;
`notFound` is `(False, "User not found", None, None)`;
`deactivated` is `(False, "User account is deactivated", None, None)`;
`badPassword` is `(False, "Invalid password", None, None)`. -/
inductive AuthRes where
  | ok (token : Nat) (u : User)
  | notFound
  | deactivated
  | badPassword
  deriving DecidableEq, Repr

/-- AuthService.authenticate_user.  Looks up by username, rejects a missing
user, rejects a deactivated account BEFORE the password check (the only
place `is_active` is consulted), verifies the credential through the
injected `checkPw` (werkzeug's `check_password_hash`), and issues a token
whose identity claim is the user id. -/
def authenticate_user (checkPw : String → String → Bool)
    (username password : String) (us : UserStore) : AuthRes :=
  match find_by_username us username with
  | none => .notFound
  | some user =>
      if !user.is_active then .deactivated
      else if !checkPw user.password_hash password then .badPassword
      else .ok user.id user

/-- AuthService.get_current_user.  Resolves the JWT identity claim to a user
row by primary key — with NO `is_active` check: a token issued before an
account was deactivated still resolves.  `identity` is
`get_jwt_identity()`; `none` models a missing claim. -/
def get_current_user (identity : Option Nat) (us : UserStore) : Option User :=
  match identity with
  | some uid => find_by_id us uid
  | none => none

/-- Observer: did create_product succeed (return site `(True, ...)`)? -/
def CreateRes.isCreated : CreateRes → Bool
  | .created _ => true
  | _ => false

/-- Python `isinstance(x, int)` on a JSON scalar. -/
def JVal.isPyInt : JVal → Bool
  | .jint _ => true
  | _ => false

/-! Concrete fixtures used by witnesses and counterexamples. -/

/-- Well-formed creation request: name "Widget", sku "SKU-1", quantity 5,
price 10. -/
def sampleData : ProductData :=
  { name := some "Widget"
    sku := some "SKU-1"
    quantity := some (.jint 5)
    price := some (.jint 10)
    type := none
    image_url := none
    description := none }

/-- Same request with the sku of the retired product below. -/
def dupData : ProductData := { sampleData with sku := some "ABC" }

/-- Same request with a negative quantity. -/
def negQtyData : ProductData := { sampleData with quantity := some (.jint (-5)) }

/-- Same request with quantity and price given as parseable strings. -/
def rawStrData : ProductData :=
  { sampleData with
      quantity := some (.jstr "5")
      price := some (.jstr "9.99") }

/-- Soft-deleted (inactive) product holding sku "ABC". -/
def retiredProduct : Product :=
  { id := 1
    name := "Old"
    type := none
    sku := "ABC"
    image_url := none
    description := none
    quantity := .jint 0
    price := .jint 1
    is_active := false
    created_by := none }

/-- Store whose only row is the retired product. -/
def retiredStore : Store := { products := [retiredProduct], nextId := 2 }

/-- Active product with id 1 and quantity 5. -/
def activeProduct : Product :=
  { id := 1
    name := "Widget"
    type := none
    sku := "SKU-1"
    image_url := none
    description := none
    quantity := .jint 5
    price := .jint 10
    is_active := true
    created_by := some 1 }

/-- Store whose only row is the active product. -/
def activeStore : Store := { products := [activeProduct], nextId := 2 }

/-- Deterministic stand-in for the injected credential-store hash. -/
def hash0 : String → String := fun s => String.append "hashed:" s

/-- Deterministic stand-in for the injected credential verifier, matching
`hash0`. -/
def checkPw0 : String → String → Bool :=
  fun stored pw => stored == String.append "hashed:" pw

/-- Active account "alice" with email a@x.com. -/
def aliceUser : User :=
  { id := 1
    username := "alice"
    password_hash := hash0 "secret1"
    email := some "a@x.com"
    is_active := true }

/-- Deactivated account "carol". -/
def carolUser : User :=
  { id := 2
    username := "carol"
    password_hash := hash0 "secret2"
    email := none
    is_active := false }

/-- User table holding alice (active) and carol (deactivated). -/
def authStore : UserStore := { users := [aliceUser, carolUser], nextId := 3 }

/-! Shared helper lemmas. -/

/-- Validation success forces all four required keys to be present (each
missing key contributes a nonempty "... is required" chunk to the error
list). -/
theorem valid_required_fields {d : ProductData}
    (h : (validate_product_data (some d)).1 = true) :
    d.name.isSome = true ∧ d.sku.isSome = true ∧ d.quantity.isSome = true ∧
      d.price.isSome = true := by
  refine ⟨?_, ?_, ?_, ?_⟩
  · cases hn : d.name with
    | some _ => rfl
    | none => simp [validate_product_data, hn] at h
  · cases hs : d.sku with
    | some _ => rfl
    | none => simp [validate_product_data, hs] at h
  · cases hq : d.quantity with
    | some _ => rfl
    | none => simp [validate_product_data, hq] at h
  · cases hp : d.price with
    | some _ => rfl
    | none => simp [validate_product_data, hp] at h

/-- Validation passes on data whose name has at least 2 characters, sku at
least 3, whose quantity coerces to a non-negative integer and whose price
coerces to a non-negative number. -/
theorem validate_ok (d : ProductData) (name sku : String) (q p : JVal)
    (n m : Int) (k : Nat)
    (hname : d.name = some name) (hn0 : name ≠ "")
    (hn2 : 2 ≤ (pyStrip name).length)
    (hsku : d.sku = some sku) (hs0 : sku ≠ "")
    (hs3 : 3 ≤ (pyStrip sku).length)
    (hq : d.quantity = some q) (hqc : pyInt q = some n) (hn : 0 ≤ n)
    (hp : d.price = some p) (hpc : pyFloat p = some (m, k)) (hm : 0 ≤ m) :
    validate_product_data (some d) = (true, []) := by
  simp [validate_product_data, hname, hsku, hq, hp, hqc, hpc, hn0, hs0,
    not_lt.mpr hn, not_lt.mpr hm]
  omega

/-- A store with no row carrying the sku (active or not) makes the
active-only lookup come back empty. -/
theorem find_by_sku_eq_none {st : Store} {sku : String}
    (h : st.products.any (fun r => r.sku == sku) = false) :
    find_by_sku st sku = none := by
  rw [find_by_sku, List.find?_eq_none]
  intro p hp hc
  rw [Bool.and_eq_true] at hc
  have hin : st.products.any (fun r => r.sku == sku) = true :=
    List.any_eq_true.mpr ⟨p, hp, hc.1⟩
  rw [hin] at h
  cases h

/-- Replacing, by primary key, the row that a by-id lookup found makes the
same lookup return the replacement. -/
theorem find?_id_replace (l : List Product) (pid : Nat) (p p' : Product)
    (hfind : l.find? (fun r => r.id == pid) = some p) (hid : p'.id = p.id) :
    (l.map (fun r => if r.id == p'.id then p' else r)).find?
      (fun r => r.id == pid) = some p' := by
  have hpid : p.id = pid := by simpa using List.find?_some hfind
  induction l with
  | nil => cases hfind
  | cons a as ih =>
      by_cases ha : (a.id == pid) = true
      · rw [List.find?_cons_of_pos (p := fun (r : Product) => r.id == pid) _ ha] at hfind
        have hap : a = p := by injection hfind
        subst hap
        have hhead : (if a.id == p'.id then p' else a) = p' := by
          simp [hid]
        simp only [List.map_cons, hhead]
        exact List.find?_cons_of_pos (p := fun (r : Product) => r.id == pid) _
          (by simp [hid, hpid])
      · rw [List.find?_cons_of_neg (p := fun (r : Product) => r.id == pid) _ ha] at hfind
        have hhead : (if a.id == p'.id then p' else a) = a := by
          have hne : ¬ a.id = p.id := by
            simpa [hpid] using ha
          simp [hid, hne]
        simp only [List.map_cons, hhead]
        rw [List.find?_cons_of_neg (p := fun (r : Product) => r.id == pid) _ ha]
        exact ih hfind

/-- Writing the same row twice by primary key is the same as writing it
once. -/
theorem setProduct_idem (st : Store) (p' : Product) :
    setProduct (setProduct st p') p' = setProduct st p' := by
  simp only [setProduct, List.map_map]
  congr 1
  apply List.map_congr_left
  intro r _
  by_cases hr : (r.id == p'.id) = true
  · simp [Function.comp, hr]
  · simp [Function.comp, hr]

/-! Claim C1. -/

/-- C1 (amended): for every store containing a product with the requested
sku — active or inactive — `create_product` never succeeds and inserts
nothing; and when the request passes validation, the duplicate-SKU error is
returned exactly when an ACTIVE product holds the sku, while an
inactive-only holder slips past `find_by_sku` and the failure instead comes
from the database UNIQUE constraint as a generic creation-failure. -/
theorem C1_create_existing_sku_never_inserts (d : ProductData)
    (cb : Option Nat) (st : Store) (sku : String) (hsku : d.sku = some sku)
    (hdup : st.products.any (fun r => r.sku == sku) = true) :
    (create_product (some d) cb st).1.isCreated = false ∧
    (create_product (some d) cb st).2 = st ∧
    ((validate_product_data (some d)).1 = true →
      ((find_by_sku st sku).isSome = true →
        (create_product (some d) cb st).1 = .dupSku sku) ∧
      ((find_by_sku st sku).isSome = false →
        (create_product (some d) cb st).1 = .failed skuIntegrityError)) := by
  by_cases hv : (validate_product_data (some d)).1 = true
  · obtain ⟨hnameS, _, hqS, hpS⟩ := valid_required_fields hv
    obtain ⟨name, hname⟩ := Option.isSome_iff_exists.mp hnameS
    obtain ⟨q, hq⟩ := Option.isSome_iff_exists.mp hqS
    obtain ⟨pr, hp⟩ := Option.isSome_iff_exists.mp hpS
    by_cases hf : (find_by_sku st sku).isSome = true
    · refine ⟨?_, ?_, fun _ => ⟨fun _ => ?_, fun hno => ?_⟩⟩ <;>
        simp_all [create_product, CreateRes.isCreated]
    · have hf' : (find_by_sku st sku).isSome = false := by simpa using hf
      refine ⟨?_, ?_, fun _ => ⟨fun hyes => ?_, fun _ => ?_⟩⟩ <;>
        simp_all [create_product, CreateRes.isCreated]
  · have hv' : (validate_product_data (some d)).1 = false := by simpa using hv
    refine ⟨?_, ?_, fun hyes => ?_⟩ <;> simp_all [create_product, CreateRes.isCreated]

/-- Witness for C1 at a concrete input: a store holding only the retired
(inactive) product with sku "ABC" and a valid request reusing "ABC". -/
theorem C1_create_existing_sku_never_inserts_witness :
    (create_product (some dupData) none retiredStore).1.isCreated = false ∧
    (create_product (some dupData) none retiredStore).2 = retiredStore ∧
    (create_product (some dupData) none retiredStore).1 =
      .failed skuIntegrityError :=
  have h := C1_create_existing_sku_never_inserts dupData none retiredStore
    "ABC" rfl (by decide)
  ⟨h.1, h.2.1, (h.2.2 (by decide)).2 (by decide)⟩

/-- C1 counterexample to the claim as stated: creating with the sku of the
soft-deleted product fails, but with the generic creation-failure carrying
the database constraint message — NOT the duplicate-SKU error. -/
theorem C1_counterexample :
    (create_product (some dupData) none retiredStore).1 =
      .failed skuIntegrityError ∧
    CreateRes.failed skuIntegrityError ≠ CreateRes.dupSku "ABC" := by
  decide

/-! Claim C2. -/

/-- C2: evaluation of the code at the failing input.  The live route
`POST /products` (`app.py` `add_product`) checks only key PRESENCE, so a
request with quantity -5 is accepted: the product is inserted and the
stored quantity is the negative integer -5, violating the claimed
invariant. -/
theorem C2_route_stores_negative_quantity :
    (addProductRoute 1 negQtyData Store.empty).1 = .added 1 ∧
    (addProductRoute 1 negQtyData Store.empty).2.products.map Product.quantity
      = [.jint (-5)] ∧
    (-5 : Int) < 0 := by
  decide

/-! Claim C4. -/

/-- C4: updating an existing active product with a negative quantity fails —
the service with "Quantity must be a non-negative integer", the live route
with the model's `ValueError` message — and both leave the store (hence the
stored quantity) unchanged. -/
theorem C4_negative_update_rejected (st : Store) (pid : Nat) (p : Product)
    (n : Int) (hfind : getById st pid = some p) (hact : p.is_active = true)
    (hneg : n < 0) :
    update_product_quantity pid (.jint n) st = (.badQuantity, st) ∧
    updateQuantityRoute pid (some (.jint n)) st =
      (.valueErr "Quantity cannot be negative", st) := by
  constructor
  · simp [update_product_quantity, hfind, hact, hneg]
  · simp [updateQuantityRoute, hfind, Product.update_quantity, hneg]

/-- Witness for C4: quantity -1 on the active product with id 1. -/
theorem C4_negative_update_rejected_witness :
    update_product_quantity 1 (.jint (-1)) activeStore =
      (.badQuantity, activeStore) ∧
    updateQuantityRoute 1 (some (.jint (-1))) activeStore =
      (.valueErr "Quantity cannot be negative", activeStore) :=
  C4_negative_update_rejected activeStore 1 activeProduct (-1)
    (by decide) (by decide) (by decide)

/-! Claim C5. -/

/-- C5: the live register endpoint (`app.py` `register`) rejects a taken
username (exact, case-sensitive match) with the duplicate-username error,
rejects a supplied nonempty email already registered to another account with
the duplicate-email error, and creates the account exactly when neither
duplicate exists. -/
theorem C5_register_unique (hashFn : String → String) (us : UserStore)
    (u pw e : String) (email : Option String)
    (hu : u ≠ "") (hp : pw ≠ "") :
    ((find_by_username us u).isSome = true →
      registerRoute hashFn ⟨some u, some pw, email⟩ us = (.userExists, us)) ∧
    ((find_by_username us u).isSome = false → e ≠ "" →
      (find_by_email us e).isSome = true →
      registerRoute hashFn ⟨some u, some pw, some e⟩ us = (.emailExists, us)) ∧
    ((find_by_username us u).isSome = false → e ≠ "" →
      (find_by_email us e).isSome = false →
      registerRoute hashFn ⟨some u, some pw, some e⟩ us =
        (.created ⟨us.nextId, u, hashFn pw, some e, true⟩,
         ⟨us.users ++ [⟨us.nextId, u, hashFn pw, some e, true⟩],
          us.nextId + 1⟩)) ∧
    ((find_by_username us u).isSome = false →
      registerRoute hashFn ⟨some u, some pw, none⟩ us =
        (.created ⟨us.nextId, u, hashFn pw, none, true⟩,
         ⟨us.users ++ [⟨us.nextId, u, hashFn pw, none, true⟩],
          us.nextId + 1⟩)) := by
  refine ⟨fun hdup => ?_, fun hfree hene hedup => ?_,
    fun hfree hene hefree => ?_, fun hfree => ?_⟩
  · simp [registerRoute, hu, hp, hdup]
  · simp [registerRoute, hu, hp, hfree, hene, hedup]
  · simp [registerRoute, hu, hp, hfree, hene, hefree]
  · simp [registerRoute, hu, hp, hfree]

/-- Witness for C5 covering all four cases against the concrete user table:
"alice" is taken; "bob" with alice's email is an email conflict; "Alice"
(differing from "alice" only in case) registers fine, demonstrating the
case-sensitive match; "dave" with no email registers fine. -/
theorem C5_register_unique_witness :
    registerRoute hash0 ⟨some "alice", some "pw1", none⟩ authStore =
      (.userExists, authStore) ∧
    registerRoute hash0 ⟨some "bob", some "pw1", some "a@x.com"⟩ authStore =
      (.emailExists, authStore) ∧
    registerRoute hash0 ⟨some "Alice", some "pw1", some "new@x.com"⟩ authStore =
      (.created ⟨3, "Alice", hash0 "pw1", some "new@x.com", true⟩,
       ⟨authStore.users ++ [⟨3, "Alice", hash0 "pw1", some "new@x.com", true⟩],
        4⟩) ∧
    registerRoute hash0 ⟨some "dave", some "pw1", none⟩ authStore =
      (.created ⟨3, "dave", hash0 "pw1", none, true⟩,
       ⟨authStore.users ++ [⟨3, "dave", hash0 "pw1", none, true⟩], 4⟩) :=
  ⟨(C5_register_unique hash0 authStore "alice" "pw1" "" none
      (by decide) (by decide)).1 (by decide),
   (C5_register_unique hash0 authStore "bob" "pw1" "a@x.com" none
      (by decide) (by decide)).2.1 (by decide) (by decide) (by decide),
   (C5_register_unique hash0 authStore "Alice" "pw1" "new@x.com" none
      (by decide) (by decide)).2.2.1 (by decide) (by decide) (by decide),
   (C5_register_unique hash0 authStore "dave" "pw1" "" none
      (by decide) (by decide)).2.2.2 (by decide)⟩

/-! Claim C6. -/

/-- C6 (amended): the service-layer updateQuantity behaves exactly as
claimed — not-found when the id is absent, the inactive error (store
unchanged) when the product is inactive, the negative-quantity/validation
error for a non-integer or negative input, and otherwise it stores the
requested value.  The live route (`app.py`), however, performs NO inactive
check: it updates any product found by id, active or not. -/
theorem C6_update_quantity_cases (st : Store) (pid : Nat) (q : JVal)
    (p : Product) (n : Int) :
    (getById st pid = none →
      update_product_quantity pid q st = (.notFound, st)) ∧
    (getById st pid = some p → p.is_active = false →
      update_product_quantity pid q st = (.inactive, st)) ∧
    (getById st pid = some p → p.is_active = true → q.isPyInt = false →
      update_product_quantity pid q st = (.badQuantity, st)) ∧
    (getById st pid = some p → p.is_active = true → n < 0 →
      update_product_quantity pid (.jint n) st = (.badQuantity, st)) ∧
    (getById st pid = some p → p.is_active = true → 0 ≤ n →
      update_product_quantity pid (.jint n) st =
        (.updated { p with quantity := .jint n },
         setProduct st { p with quantity := .jint n })) ∧
    (getById st pid = some p → 0 ≤ n →
      updateQuantityRoute pid (some (.jint n)) st =
        (.ok200 { p with quantity := .jint n },
         setProduct st { p with quantity := .jint n })) := by
  refine ⟨fun hmiss => ?_, fun hfind hinact => ?_, fun hfind hact hnotint => ?_,
    fun hfind hact hneg => ?_, fun hfind hact hge => ?_, fun hfind hge => ?_⟩
  · simp [update_product_quantity, hmiss]
  · simp [update_product_quantity, hfind, hinact]
  · cases q <;> simp_all [update_product_quantity, JVal.isPyInt]
  · simp [update_product_quantity, hfind, hact, hneg]
  · simp [update_product_quantity, hfind, hact, not_lt.mpr hge,
      Product.update_quantity]
  · simp [updateQuantityRoute, hfind, Product.update_quantity, not_lt.mpr hge]

/-- Witness for C6 exercising all six conjuncts: id 7 is absent; the retired
product (id 1 of its store) is inactive for the service; the active product
rejects a string and a negative quantity and accepts 9; the route updates
the active product to 9. -/
theorem C6_update_quantity_cases_witness :
    update_product_quantity 7 (.jint 9) activeStore = (.notFound, activeStore) ∧
    update_product_quantity 1 (.jint 9) retiredStore =
      (.inactive, retiredStore) ∧
    update_product_quantity 1 (.jstr "9") activeStore =
      (.badQuantity, activeStore) ∧
    update_product_quantity 1 (.jint (-3)) activeStore =
      (.badQuantity, activeStore) ∧
    update_product_quantity 1 (.jint 9) activeStore =
      (.updated { activeProduct with quantity := .jint 9 },
       setProduct activeStore { activeProduct with quantity := .jint 9 }) ∧
    updateQuantityRoute 1 (some (.jint 9)) activeStore =
      (.ok200 { activeProduct with quantity := .jint 9 },
       setProduct activeStore { activeProduct with quantity := .jint 9 }) :=
  ⟨(C6_update_quantity_cases activeStore 7 (.jint 9) activeProduct 9).1
      (by decide),
   (C6_update_quantity_cases retiredStore 1 (.jint 9) retiredProduct 9).2.1
      (by decide) (by decide),
   (C6_update_quantity_cases activeStore 1 (.jstr "9") activeProduct 9).2.2.1
      (by decide) (by decide) (by decide),
   (C6_update_quantity_cases activeStore 1 (.jint (-3)) activeProduct
      (-3)).2.2.2.1 (by decide) (by decide) (by decide),
   (C6_update_quantity_cases activeStore 1 (.jint 9) activeProduct 9).2.2.2.2.1
      (by decide) (by decide) (by decide),
   (C6_update_quantity_cases activeStore 1 (.jint 9) activeProduct
      9).2.2.2.2.2 (by decide) (by decide)⟩

/-- C6 counterexample to the claim as stated: through the live route
`PUT /products/1/quantity`, the soft-deleted (inactive) product IS updated
— result 200 and the stored quantity changes to 7, with no inactive
error. -/
theorem C6_counterexample :
    retiredProduct.is_active = false ∧
    (updateQuantityRoute 1 (some (.jint 7)) retiredStore).1 =
      .ok200 { retiredProduct with quantity := .jint 7 } ∧
    (updateQuantityRoute 1 (some (.jint 7)) retiredStore).2.products.map
        Product.quantity = [.jint 7] := by
  decide

/-! Claim C7. -/

/-- C7: on valid input (name at least 2 characters after stripping, sku at
least 3, integer quantity at least 0, price at least 0) against a store with
no product carrying the sku, create succeeds with the row built from the
request, a subsequent lookup-by-sku returns exactly that row, and its
`in_stock` attribute — computed by `is_in_stock` from the stored quantity,
never stored as a column — equals quantity > 0. -/
theorem C7_create_then_lookup (d : ProductData) (cb : Option Nat) (st : Store)
    (name sku : String) (q pr : Int)
    (hname : d.name = some name) (hn0 : name ≠ "")
    (hn2 : 2 ≤ (pyStrip name).length)
    (hsku : d.sku = some sku) (hs0 : sku ≠ "")
    (hs3 : 3 ≤ (pyStrip sku).length)
    (hq : d.quantity = some (.jint q)) (hq0 : 0 ≤ q)
    (hp : d.price = some (.jint pr)) (hp0 : 0 ≤ pr)
    (hfresh : st.products.any (fun r => r.sku == sku) = false) :
    create_product (some d) cb st =
      (.created (newProduct st.nextId name sku (.jint q) (.jint pr)
          d.type d.image_url d.description cb),
       { products := st.products ++ [newProduct st.nextId name sku (.jint q)
           (.jint pr) d.type d.image_url d.description cb],
         nextId := st.nextId + 1 }) ∧
    find_by_sku (create_product (some d) cb st).2 sku =
      some (newProduct st.nextId name sku (.jint q) (.jint pr)
        d.type d.image_url d.description cb) ∧
    (newProduct st.nextId name sku (.jint q) (.jint pr)
        d.type d.image_url d.description cb).is_in_stock =
      some (decide (0 < q)) := by
  have hval := validate_ok d name sku (.jint q) (.jint pr) q pr 0
    hname hn0 hn2 hsku hs0 hs3 hq rfl hq0 hp rfl hp0
  have hnone := find_by_sku_eq_none hfresh
  have hmain : create_product (some d) cb st =
      (.created (newProduct st.nextId name sku (.jint q) (.jint pr)
          d.type d.image_url d.description cb),
       { products := st.products ++ [newProduct st.nextId name sku (.jint q)
           (.jint pr) d.type d.image_url d.description cb],
         nextId := st.nextId + 1 }) := by
    simp [create_product, hval, hsku, hname, hq, hp, hnone, hfresh]
  have h1 : List.find? (fun r => r.sku == sku && r.is_active) st.products
      = none := by
    rwa [find_by_sku] at hnone
  refine ⟨hmain, ?_, rfl⟩
  rw [hmain]
  simp [find_by_sku, List.find?_append, h1, newProduct, List.find?]

/-- Witness for C7: the sample request on the empty store. -/
theorem C7_create_then_lookup_witness :
    create_product (some sampleData) (some 1) Store.empty =
      (.created (newProduct 1 "Widget" "SKU-1" (.jint 5) (.jint 10)
          none none none (some 1)),
       { products := [newProduct 1 "Widget" "SKU-1" (.jint 5) (.jint 10)
           none none none (some 1)],
         nextId := 2 }) ∧
    find_by_sku (create_product (some sampleData) (some 1) Store.empty).2
        "SKU-1" =
      some (newProduct 1 "Widget" "SKU-1" (.jint 5) (.jint 10)
        none none none (some 1)) ∧
    (newProduct 1 "Widget" "SKU-1" (.jint 5) (.jint 10)
        none none none (some 1)).is_in_stock = some (decide (0 < (5 : Int))) :=
  C7_create_then_lookup sampleData (some 1) Store.empty "Widget" "SKU-1" 5 10
    rfl (by decide) (by decide) rfl (by decide) (by decide)
    rfl (by decide) rfl (by decide) (by decide)

/-! Claim C8. -/

/-- C8: soft delete is idempotent — the first delete of an existing product
answers "deleted" and clears the active flag; a second delete answers
exactly the same (no error escalation) and leaves the store identical; and
the product stays queryable by id afterwards, inactive. -/
theorem C8_soft_delete_idempotent (st : Store) (pid : Nat) (p : Product)
    (hfind : getById st pid = some p) :
    (deleteRoute pid st).1 = .deleted ∧
    (deleteRoute pid (deleteRoute pid st).2).1 = .deleted ∧
    (deleteRoute pid (deleteRoute pid st).2).2 = (deleteRoute pid st).2 ∧
    getProductRoute pid (deleteRoute pid st).2 = some (markInactive p) ∧
    (markInactive p).is_active = false := by
  have h1 : deleteRoute pid st = (.deleted, setProduct st (markInactive p)) := by
    simp [deleteRoute, hfind]
  have hfind' : st.products.find? (fun r => r.id == pid) = some p := hfind
  have hfind2 : getById (setProduct st (markInactive p)) pid
      = some (markInactive p) := by
    rw [getById, setProduct]
    exact find?_id_replace st.products pid p (markInactive p) hfind' rfl
  have hmm : markInactive (markInactive p) = markInactive p := rfl
  have h2 : deleteRoute pid (setProduct st (markInactive p)) =
      (.deleted, setProduct (setProduct st (markInactive p))
        (markInactive p)) := by
    simp [deleteRoute, hfind2, hmm]
  refine ⟨by rw [h1], ?_, ?_, ?_, rfl⟩
  · rw [h1]
    rw [h2]
  · rw [h1]
    rw [h2]
    exact setProduct_idem st (markInactive p)
  · rw [h1]
    exact hfind2

/-- Witness for C8: deleting the active product with id 1 twice. -/
theorem C8_soft_delete_idempotent_witness :
    (deleteRoute 1 activeStore).1 = .deleted ∧
    (deleteRoute 1 (deleteRoute 1 activeStore).2).1 = .deleted ∧
    (deleteRoute 1 (deleteRoute 1 activeStore).2).2 =
      (deleteRoute 1 activeStore).2 ∧
    getProductRoute 1 (deleteRoute 1 activeStore).2 =
      some (markInactive activeProduct) ∧
    (markInactive activeProduct).is_active = false :=
  C8_soft_delete_idempotent activeStore 1 activeProduct (by decide)

/-! Claim C9. -/

/-- C9: token acceptance never re-checks the account's active flag —
`get_current_user` resolves a deactivated user from the token's identity
claim, and the token-protected product-creation route succeeds with a
deactivated user's identity (the route consults no user state at all);
`is_active` is consulted only by `authenticate_user`, which rejects the
deactivated account at login, before even checking the password. -/
theorem C9_active_flag_not_rechecked (us : UserStore) (uid : Nat) (u : User)
    (checkPw : String → String → Bool) (pw : String)
    (st : Store) (d : ProductData) (name sku : String) (q pr : JVal)
    (hfind : find_by_id us uid = some u) (hinact : u.is_active = false)
    (hby : find_by_username us u.username = some u)
    (hname : d.name = some name) (hsku : d.sku = some sku)
    (hq : d.quantity = some q) (hp : d.price = some pr)
    (hfresh : st.products.any (fun r => r.sku == sku) = false) :
    get_current_user (some uid) us = some u ∧
    authenticate_user checkPw u.username pw us = .deactivated ∧
    addProductRoute uid d st =
      (.added st.nextId,
       { products := st.products ++ [newProduct st.nextId name sku q pr
           d.type d.image_url d.description (some uid)],
         nextId := st.nextId + 1 }) := by
  refine ⟨?_, ?_, ?_⟩
  · simp [get_current_user, hfind]
  · simp [authenticate_user, hby, hinact]
  · simp [addProductRoute, hname, hsku, hq, hp,
      find_by_sku_eq_none hfresh, hfresh]

/-- Witness for C9: carol (id 2) is deactivated, yet her token identity
resolves and creates a product; her login is refused as deactivated even
with the correct password's verifier. -/
theorem C9_active_flag_not_rechecked_witness :
    get_current_user (some 2) authStore = some carolUser ∧
    authenticate_user checkPw0 "carol" "secret2" authStore = .deactivated ∧
    addProductRoute 2 sampleData Store.empty =
      (.added 1,
       { products := [newProduct 1 "Widget" "SKU-1" (.jint 5) (.jint 10)
           none none none (some 2)],
         nextId := 2 }) :=
  C9_active_flag_not_rechecked authStore 2 carolUser checkPw0 "secret2"
    Store.empty sampleData "Widget" "SKU-1" (.jint 5) (.jint 10)
    (by decide) (by decide) (by decide) rfl rfl rfl rfl (by decide)

/-! Claim C10. -/

/-- C10: validation coerces but creation stores the raw value — when the
quantity field is a string that Python's `int()` parses to a non-negative
integer and the price field a string that `float()` parses to a
non-negative number, validation passes, yet the created row's quantity and
price are the original strings (not integers: `isPyInt` is false on the
stored quantity). -/
theorem C10_raw_string_values_stored (d : ProductData) (cb : Option Nat)
    (st : Store) (name sku qs ps : String) (n m : Int) (k : Nat)
    (hname : d.name = some name) (hn0 : name ≠ "")
    (hn2 : 2 ≤ (pyStrip name).length)
    (hsku : d.sku = some sku) (hs0 : sku ≠ "")
    (hs3 : 3 ≤ (pyStrip sku).length)
    (hq : d.quantity = some (.jstr qs)) (hqc : pyIntStr qs = some n)
    (hq0 : 0 ≤ n)
    (hp : d.price = some (.jstr ps)) (hpc : pyFloatStr ps = some (m, k))
    (hp0 : 0 ≤ m)
    (hfresh : st.products.any (fun r => r.sku == sku) = false) :
    (validate_product_data (some d)).1 = true ∧
    create_product (some d) cb st =
      (.created (newProduct st.nextId name sku (.jstr qs) (.jstr ps)
          d.type d.image_url d.description cb),
       { products := st.products ++ [newProduct st.nextId name sku (.jstr qs)
           (.jstr ps) d.type d.image_url d.description cb],
         nextId := st.nextId + 1 }) ∧
    (newProduct st.nextId name sku (.jstr qs) (.jstr ps)
        d.type d.image_url d.description cb).quantity = .jstr qs ∧
    (newProduct st.nextId name sku (.jstr qs) (.jstr ps)
        d.type d.image_url d.description cb).quantity.isPyInt = false ∧
    (newProduct st.nextId name sku (.jstr qs) (.jstr ps)
        d.type d.image_url d.description cb).price = .jstr ps := by
  have hval := validate_ok d name sku (.jstr qs) (.jstr ps) n m k
    hname hn0 hn2 hsku hs0 hs3 hq (by simpa [pyInt] using hqc) hq0
    hp (by simpa [pyFloat] using hpc) hp0
  have hnone := find_by_sku_eq_none hfresh
  refine ⟨by rw [hval], ?_, rfl, rfl, rfl⟩
  simp [create_product, hval, hsku, hname, hq, hp, hnone, hfresh]

/-- Witness for C10: quantity "5" and price "9.99" (parsed by `float()` as
999/100) pass validation and are stored as the strings themselves. -/
theorem C10_raw_string_values_stored_witness :
    (validate_product_data (some rawStrData)).1 = true ∧
    create_product (some rawStrData) none Store.empty =
      (.created (newProduct 1 "Widget" "SKU-1" (.jstr "5") (.jstr "9.99")
          none none none none),
       { products := [newProduct 1 "Widget" "SKU-1" (.jstr "5") (.jstr "9.99")
           none none none none],
         nextId := 2 }) ∧
    (newProduct 1 "Widget" "SKU-1" (.jstr "5") (.jstr "9.99")
        none none none none).quantity = .jstr "5" ∧
    (newProduct 1 "Widget" "SKU-1" (.jstr "5") (.jstr "9.99")
        none none none none).quantity.isPyInt = false ∧
    (newProduct 1 "Widget" "SKU-1" (.jstr "5") (.jstr "9.99")
        none none none none).price = .jstr "9.99" :=
  C10_raw_string_values_stored rawStrData
    none Store.empty "Widget" "SKU-1" "5" "9.99" 5 999 2
    rfl (by decide) (by decide) rfl (by decide) (by decide)
    rfl (by decide) (by decide) rfl (by decide) (by decide) (by decide)

end Inventory
